import Mathlib

/-!
Verification of the `odooconn` module (file `odooconn.py`): a thin client
binding over an XML-RPC transport to an Odoo server.  The module is a
parameter-shaping shim: every operation builds a fixed envelope
`(database, uid, password, model, method, args[, kwargs])` and relays it to
the remote generic-execute endpoint.

Shallow embedding:
* Python values are modelled by the inductive `PyVal` (None, bools, ints,
  strings, lists, dicts).
* The construction of each `xmlrpc.client.ServerProxy` handle is modelled
  by `serverProxy`, which performs the local scheme check the stdlib
  performs on the URI `f"{url}/xmlrpc/2/..."` (built with `pyStr`, the
  str() rendering of the configured url) and raises `OSError` when the
  scheme is not http or https.  The network behaviour of the handles is
  modelled as oracles: `AuthOracle` for the method `authenticate` of the
  `/xmlrpc/2/common` endpoint and `Oracle` for the method `execute_kw` of
  the `/xmlrpc/2/object` endpoint.  An oracle returns either a value, an
  application fault (`xmlrpc.client.Fault`), or a transport-level error
  (protocol/socket failures).
* Each method of the `OdooConn` class becomes a Lean function taking the
  oracle and the connection record; it returns an `OpResult` holding the
  Python return value or raised exception, the exact remote calls issued,
  the completed `logger.error` invocations, and the connection state after
  the call (the Python bodies never assign to `self`, so it is the input
  connection).
* Python `str.format` with auto-numbered `{}` fields raises `IndexError`
  when there are more fields than arguments; `strFormatArgs` models exactly
  that arity check (this matters: the except-handler of `search_read` passes two
  arguments to a three-field format string).
-/

namespace OdooConnSpec

/-- Python values exchanged with the remote server: `None`, booleans,
integers, strings, lists and string-keyed dicts. -/
inductive PyVal : Type where
  | none : PyVal
  | bool : Bool → PyVal
  | int : Int → PyVal
  | str : String → PyVal
  | list : List PyVal → PyVal
  | dict : List (String × PyVal) → PyVal


/-- An `xmlrpc.client.Fault`: the application-level fault the server reports
(code and message). -/
structure Fault : Type where
  faultCode : Int
  faultString : String


/-- Python exceptions that the module code can raise or propagate.
`osError` covers `OSError`, which `xmlrpc.client.ServerProxy` raises locally
when the URI it is given has no http/https scheme. -/
inductive PyExn : Type where
  | fault : Fault → PyExn
  | transport : String → PyExn
  | indexError : String → PyExn
  | typeError : String → PyExn
  | keyError : String → PyExn
  | osError : String → PyExn


/-- Outcome of one remote procedure call, as seen by the client: a result
value, an application fault, or a transport-level error. -/
inductive RpcOutcome : Type where
  | ok : PyVal → RpcOutcome
  | fault : Fault → RpcOutcome
  | transportError : String → RpcOutcome


/-- One invocation of the remote generic-execute endpoint
(`models.execute_kw` in the source): the fixed envelope
`(database, uid, password, model, method, args[, kwargs])`.  `kwargs` is
`Option.none` when the Python call passes only six positional arguments. -/
structure ExecuteKwCall : Type where
  database : PyVal
  uid : PyVal
  password : PyVal
  model : String
  method : String
  args : PyVal
  kwargs : Option PyVal


/-- The `/xmlrpc/2/object` endpoint: maps each execute_kw envelope to an
outcome. -/
def Oracle : Type := ExecuteKwCall → RpcOutcome

/-- The method `authenticate(db, username, password, user_agent_env)` of the
`/xmlrpc/2/common` endpoint. -/
def AuthOracle : Type := PyVal → PyVal → PyVal → PyVal → RpcOutcome

/-- Python truthiness of a value (`if v:`). -/
def pyTruthy : PyVal → Bool
  | PyVal.none => false
  | PyVal.bool b => b
  | PyVal.int n => decide (n ≠ 0)
  | PyVal.str s => decide (s ≠ "")
  | PyVal.list xs => !xs.isEmpty
  | PyVal.dict kvs => !kvs.isEmpty

/-- Python subscript `v[0]`: first element of a list, first character of a
string; other types raise. -/
def pyIndexZero : PyVal → Except PyExn PyVal
  | PyVal.list [] => Except.error (PyExn.indexError "list index out of range")
  | PyVal.list (x :: _) => Except.ok x
  | PyVal.str s =>
      match s.data with
      | [] => Except.error (PyExn.indexError "string index out of range")
      | ch :: _ => Except.ok (PyVal.str (String.mk [ch]))
  | PyVal.dict _ => Except.error (PyExn.keyError "0")
  | _ => Except.error (PyExn.typeError "object is not subscriptable")

/-- An argument handed to `str.format` inside a `logger.error` call: the
caught fault object, a string (the model name), an integer (a record id), or
any other Python value. -/
inductive LogArg : Type where
  | errArg : Fault → LogArg
  | strArg : String → LogArg
  | intArg : Int → LogArg
  | valArg : PyVal → LogArg


/-- Python `str.format` with auto-numbered `{}` replacement fields: with
`numFields` fields and the given positional arguments it succeeds (the log
record carries the arguments) when every field has an argument, and raises
`IndexError` when there are more fields than arguments — exactly the CPython
behaviour (`Replacement index k out of range for positional args tuple`,
where `k` is the number of arguments supplied). -/
def strFormatArgs (numFields : Nat) (args : List LogArg) :
    Except PyExn (List LogArg) :=
  if numFields ≤ args.length then Except.ok args
  else
    Except.error (PyExn.indexError
      ("Replacement index " ++ toString args.length ++
        " out of range for positional args tuple"))

/-- Python `config.get(key)` on a dict: the stored value, or `None` when the
key is absent (no exception, no default). -/
def configGet (config : List (String × PyVal)) (key : String) : PyVal :=
  match config.lookup key with
  | Option.some v => v
  | Option.none => PyVal.none

/-- The ASCII single-quote character, used by the Python repr of strings. -/
def quoteChar : Char := Char.ofNat 39

/-- Python repr of a string as it appears nested inside a list or dict
rendering: single-quoted.  Escape processing (backslashes, embedded quotes,
control characters) is not performed; the only consumer is the URI scheme
check in `serverProxy`, which inspects at most the characters before the
first colon and already fails on the leading quote, bracket or brace that
every such rendering starts with, so the difference is unobservable
there. -/
def quoteStr (s : String) : String :=
  String.mk [quoteChar] ++ s ++ String.mk [quoteChar]

mutual

/-- Python `repr` of a value: `None`, `True`/`False`, decimal integers,
single-quoted strings, `[...]` lists and `{...}` dicts with `", "`
separators and `": "` between key and value, as CPython renders them. -/
def pyRepr : PyVal → String
  | PyVal.none => "None"
  | PyVal.bool true => "True"
  | PyVal.bool false => "False"
  | PyVal.int n => toString n
  | PyVal.str s => quoteStr s
  | PyVal.list xs => "[" ++ pyReprList xs ++ "]"
  | PyVal.dict kvs => "\x7b" ++ pyReprDict kvs ++ "\x7d"

/-- Comma-separated renderings of list elements. -/
def pyReprList : List PyVal → String
  | [] => ""
  | [x] => pyRepr x
  | x :: xs => pyRepr x ++ ", " ++ pyReprList xs

/-- Comma-separated `key: value` renderings of dict entries. -/
def pyReprDict : List (String × PyVal) → String
  | [] => ""
  | [(k, v)] => quoteStr k ++ ": " ++ pyRepr v
  | (k, v) :: kvs => quoteStr k ++ ": " ++ pyRepr v ++ ", " ++ pyReprDict kvs

end

/-- Python `str()` of a value, which is what f-string interpolation uses:
identical to `repr` except that a top-level string renders without
quotes. -/
def pyStr : PyVal → String
  | PyVal.str s => s
  | v => pyRepr v

/-- A character permitted inside a URL scheme by `urllib.parse.urlsplit`:
ASCII letters, digits, plus, minus, dot. -/
def isSchemeChar (c : Char) : Bool :=
  c.isAlpha || c.isDigit || c == Char.ofNat 43 || c == Char.ofNat 45 ||
    c == Char.ofNat 46

/-- The scheme `urllib.parse.urlsplit` extracts from a URI: the lowercased
text before the first colon, provided that text is nonempty, starts with an
ASCII letter and consists only of scheme characters; the empty string
otherwise (in particular when the URI has no colon at all). -/
def uriScheme (s : String) : String :=
  let cs := s.data
  let pre := cs.takeWhile (fun c => !(c == Char.ofNat 58))
  if pre.length = cs.length then ""
  else
    match pre with
    | [] => ""
    | c0 :: _ =>
        if c0.isAlpha && pre.all isSchemeChar then
          String.mk (pre.map Char.toLower)
        else ""

/-- `xmlrpc.client.ServerProxy(uri)`: checks the scheme of the URI and
raises `OSError("unsupported XML-RPC protocol")` unless it is http or
https.  The constructed handle is modelled by the address it was built on;
its network behaviour lives in the oracles the operations receive. -/
def serverProxy (uri : String) : Except PyExn String :=
  if uriScheme uri = "http" ∨ uriScheme uri = "https" then Except.ok uri
  else Except.error (PyExn.osError "unsupported XML-RPC protocol")

/-- Both endpoint URIs built from the configured url value pass the
`ServerProxy` scheme check, so `__init__` reaches `authenticate`. -/
def proxyOk (url : PyVal) : Bool :=
  match serverProxy (pyStr url ++ "/xmlrpc/2/common"),
      serverProxy (pyStr url ++ "/xmlrpc/2/object") with
  | Except.ok _, Except.ok _ => true
  | _, _ => false

/-- The connection object: the seven configuration values copied verbatim
from the config mapping in `__init__`, plus the session identifier `uid`
returned by `authenticate`.  The two `ServerProxy` handles (`self.common`,
`self.models`) are modelled by the oracles each operation receives. -/
structure OdooConn : Type where
  hostname : PyVal
  port : PyVal
  schema : PyVal
  database : PyVal
  username : PyVal
  password : PyVal
  url : PyVal
  uid : PyVal


/-- Result of running `__init__`: the constructed connection and the list of
`authenticate` invocations it performed (each recorded as the argument
quadruple `(database, username, password, user_agent_env)`). -/
structure InitResult : Type where
  conn : OdooConn
  authCalls : List (PyVal × PyVal × PyVal × PyVal)


/-- `OdooConn.__init__(config)`: reads the seven options via `config.get`
(absent keys yield `None`; nothing is validated by this module), then
builds the two `ServerProxy` handles on `f"{self.url}/xmlrpc/2/common"` and
`f"{self.url}/xmlrpc/2/object"` — each raises `OSError` locally, before any
network traffic, when the URI lacks an http/https scheme (in particular
when `url` is missing, since `str(None)` is scheme-less) — then calls
`common.authenticate(database, username, password, {})` exactly once and
stores whatever it returns as `uid`; a falsy identifier is stored
unchecked.  Any exception raised on the way propagates, so no object is
constructed. -/
def OdooConn.init (auth : AuthOracle) (config : List (String × PyVal)) :
    Except PyExn InitResult :=
  let hostname := configGet config "hostname"
  let port := configGet config "port"
  let schema := configGet config "schema"
  let database := configGet config "database"
  let username := configGet config "username"
  let password := configGet config "password"
  let url := configGet config "url"
  match serverProxy (pyStr url ++ "/xmlrpc/2/common") with
  | Except.error e => Except.error e
  | Except.ok _ =>
      match serverProxy (pyStr url ++ "/xmlrpc/2/object") with
      | Except.error e => Except.error e
      | Except.ok _ =>
          match auth database username password (PyVal.dict []) with
          | RpcOutcome.ok v =>
              Except.ok
                (InitResult.mk
                  (OdooConn.mk hostname port schema database username
                    password url v)
                  [(database, username, password, PyVal.dict [])])
          | RpcOutcome.fault f => Except.error (PyExn.fault f)
          | RpcOutcome.transportError m =>
              Except.error (PyExn.transport m)

/-- Result of running one method of the connection: the Python return value
(`Except.ok`) or the exception that escaped (`Except.error`), the remote
execute_kw calls issued, the `logger.error` records that completed, and the
connection state when the method returns (the bodies never assign to
`self`). -/
structure OpResult : Type where
  result : Except PyExn PyVal
  calls : List ExecuteKwCall
  logged : List (List LogArg)
  connAfter : OdooConn


/-- `create(model, values)`: `execute_kw(db, uid, password, model, "create",
[values])` inside `try`; a `Fault` is caught and logged with
`"err={} model={} values={}".format(err, model, values)` and the method
falls through returning `None`; any other exception propagates. -/
def OdooConn.create (remote : Oracle) (c : OdooConn) (model : String)
    (values : PyVal) : OpResult :=
  let call := ExecuteKwCall.mk c.database c.uid c.password model "create"
    (PyVal.list [values]) Option.none
  match remote call with
  | RpcOutcome.ok v => OpResult.mk (Except.ok v) [call] [] c
  | RpcOutcome.fault err =>
      match strFormatArgs 3
          [LogArg.errArg err, LogArg.strArg model, LogArg.valArg values] with
      | Except.ok rec0 => OpResult.mk (Except.ok PyVal.none) [call] [rec0] c
      | Except.error e => OpResult.mk (Except.error e) [call] [] c
  | RpcOutcome.transportError m =>
      OpResult.mk (Except.error (PyExn.transport m)) [call] [] c

/-- `load(model, header, values)`: `execute_kw(db, uid, password, model,
"load", [[header], [values]])` inside `try`; a `Fault` is caught and logged
with `"err={} model={} values={}".format(err, model, values)` and the
method returns `None`; any other exception propagates. -/
def OdooConn.load (remote : Oracle) (c : OdooConn) (model : String)
    (header : PyVal) (values : PyVal) : OpResult :=
  let call := ExecuteKwCall.mk c.database c.uid c.password model "load"
    (PyVal.list [PyVal.list [header], PyVal.list [values]]) Option.none
  match remote call with
  | RpcOutcome.ok v => OpResult.mk (Except.ok v) [call] [] c
  | RpcOutcome.fault err =>
      match strFormatArgs 3
          [LogArg.errArg err, LogArg.strArg model, LogArg.valArg values] with
      | Except.ok rec0 => OpResult.mk (Except.ok PyVal.none) [call] [rec0] c
      | Except.error e => OpResult.mk (Except.error e) [call] [] c
  | RpcOutcome.transportError m =>
      OpResult.mk (Except.error (PyExn.transport m)) [call] [] c

/-- `count(model, domain, limit=0)`: `execute_kw(db, uid, password, model,
"search_count", domain, {"limit": limit})`.  The domain from the caller is passed
through as the positional-args value unmodified.  No exception handling. -/
def OdooConn.count (remote : Oracle) (c : OdooConn) (model : String)
    (domain : PyVal) (limit : Int) : OpResult :=
  let call := ExecuteKwCall.mk c.database c.uid c.password model
    "search_count" domain
    (Option.some (PyVal.dict [("limit", PyVal.int limit)]))
  match remote call with
  | RpcOutcome.ok v => OpResult.mk (Except.ok v) [call] [] c
  | RpcOutcome.fault f =>
      OpResult.mk (Except.error (PyExn.fault f)) [call] [] c
  | RpcOutcome.transportError m =>
      OpResult.mk (Except.error (PyExn.transport m)) [call] [] c

/-- `fields_get(model, attributes)`: with a falsy `attributes`
(the empty list) calls `execute_kw(db, uid, password, model, "fields_get",
[])` with no keyword arguments; otherwise the same call with
`{"attributes": attributes}`.  No exception handling. -/
def OdooConn.fields_get (remote : Oracle) (c : OdooConn) (model : String)
    (attributes : PyVal) : OpResult :=
  let call :=
    if pyTruthy attributes then
      ExecuteKwCall.mk c.database c.uid c.password model "fields_get"
        (PyVal.list [])
        (Option.some (PyVal.dict [("attributes", attributes)]))
    else
      ExecuteKwCall.mk c.database c.uid c.password model "fields_get"
        (PyVal.list []) Option.none
  match remote call with
  | RpcOutcome.ok v => OpResult.mk (Except.ok v) [call] [] c
  | RpcOutcome.fault f =>
      OpResult.mk (Except.error (PyExn.fault f)) [call] [] c
  | RpcOutcome.transportError m =>
      OpResult.mk (Except.error (PyExn.transport m)) [call] [] c

/-- `get_id(model, domain)`: `execute_kw(db, uid, password, model, "search",
domain, {"limit": 1})`, then `return id[0] if id else -1`.  No exception
handling: remote faults propagate. -/
def OdooConn.get_id (remote : Oracle) (c : OdooConn) (model : String)
    (domain : PyVal) : OpResult :=
  let call := ExecuteKwCall.mk c.database c.uid c.password model "search"
    domain (Option.some (PyVal.dict [("limit", PyVal.int 1)]))
  match remote call with
  | RpcOutcome.ok v =>
      if pyTruthy v then
        match pyIndexZero v with
        | Except.ok x => OpResult.mk (Except.ok x) [call] [] c
        | Except.error e => OpResult.mk (Except.error e) [call] [] c
      else OpResult.mk (Except.ok (PyVal.int (-1))) [call] [] c
  | RpcOutcome.fault f =>
      OpResult.mk (Except.error (PyExn.fault f)) [call] [] c
  | RpcOutcome.transportError m =>
      OpResult.mk (Except.error (PyExn.transport m)) [call] [] c

/-- `search(model, domain)`: `execute_kw(db, uid, password, model, "search",
domain)`; the domain passes through unmodified.  No exception handling. -/
def OdooConn.search (remote : Oracle) (c : OdooConn) (model : String)
    (domain : PyVal) : OpResult :=
  let call := ExecuteKwCall.mk c.database c.uid c.password model "search"
    domain Option.none
  match remote call with
  | RpcOutcome.ok v => OpResult.mk (Except.ok v) [call] [] c
  | RpcOutcome.fault f =>
      OpResult.mk (Except.error (PyExn.fault f)) [call] [] c
  | RpcOutcome.transportError m =>
      OpResult.mk (Except.error (PyExn.transport m)) [call] [] c

/-- `read(model, ids, fields)`: `execute_kw(db, uid, password, model,
"read", [ids], {"fields": fields})`.  No exception handling. -/
def OdooConn.read (remote : Oracle) (c : OdooConn) (model : String)
    (ids : PyVal) (fields : PyVal) : OpResult :=
  let call := ExecuteKwCall.mk c.database c.uid c.password model "read"
    (PyVal.list [ids]) (Option.some (PyVal.dict [("fields", fields)]))
  match remote call with
  | RpcOutcome.ok v => OpResult.mk (Except.ok v) [call] [] c
  | RpcOutcome.fault f =>
      OpResult.mk (Except.error (PyExn.fault f)) [call] [] c
  | RpcOutcome.transportError m =>
      OpResult.mk (Except.error (PyExn.transport m)) [call] [] c

/-- `search_read(model, domain, offset=0, limit=0, fields=[])`:
`execute_kw(db, uid, password, model, "search_read", domain,
{"offset": offset, "limit": limit, "fields": fields})` inside `try`.  The
`except Fault` handler runs
`"err={} model={} values={}".format(err, model)` — three replacement fields
but only two arguments, so the format call itself raises `IndexError`,
which propagates out of the method. -/
def OdooConn.search_read (remote : Oracle) (c : OdooConn) (model : String)
    (domain : PyVal) (offset : Int) (limit : Int) (fields : PyVal) :
    OpResult :=
  let call := ExecuteKwCall.mk c.database c.uid c.password model
    "search_read" domain
    (Option.some (PyVal.dict
      [("offset", PyVal.int offset), ("limit", PyVal.int limit),
        ("fields", fields)]))
  match remote call with
  | RpcOutcome.ok v => OpResult.mk (Except.ok v) [call] [] c
  | RpcOutcome.fault err =>
      match strFormatArgs 3 [LogArg.errArg err, LogArg.strArg model] with
      | Except.ok rec0 => OpResult.mk (Except.ok PyVal.none) [call] [rec0] c
      | Except.error e => OpResult.mk (Except.error e) [call] [] c
  | RpcOutcome.transportError m =>
      OpResult.mk (Except.error (PyExn.transport m)) [call] [] c

/-- `write(model, id, values)`: `execute_kw(db, uid, password, model,
"write", [[id], values])` inside `try`; a `Fault` is caught and logged with
`"err={} model={} id={} values={}".format(err, model, id, values)` and the
method returns `None`; any other exception propagates. -/
def OdooConn.write (remote : Oracle) (c : OdooConn) (model : String)
    (id : Int) (values : PyVal) : OpResult :=
  let call := ExecuteKwCall.mk c.database c.uid c.password model "write"
    (PyVal.list [PyVal.list [PyVal.int id], values]) Option.none
  match remote call with
  | RpcOutcome.ok v => OpResult.mk (Except.ok v) [call] [] c
  | RpcOutcome.fault err =>
      match strFormatArgs 4
          [LogArg.errArg err, LogArg.strArg model, LogArg.intArg id,
            LogArg.valArg values] with
      | Except.ok rec0 => OpResult.mk (Except.ok PyVal.none) [call] [rec0] c
      | Except.error e => OpResult.mk (Except.error e) [call] [] c
  | RpcOutcome.transportError m =>
      OpResult.mk (Except.error (PyExn.transport m)) [call] [] c

/-- `unlink(model, ids)`: `execute_kw(db, uid, password, model, "unlink",
[ids])`.  No exception handling. -/
def OdooConn.unlink (remote : Oracle) (c : OdooConn) (model : String)
    (ids : PyVal) : OpResult :=
  let call := ExecuteKwCall.mk c.database c.uid c.password model "unlink"
    (PyVal.list [ids]) Option.none
  match remote call with
  | RpcOutcome.ok v => OpResult.mk (Except.ok v) [call] [] c
  | RpcOutcome.fault f =>
      OpResult.mk (Except.error (PyExn.fault f)) [call] [] c
  | RpcOutcome.transportError m =>
      OpResult.mk (Except.error (PyExn.transport m)) [call] [] c

/-- `execute(model, method, args)`: `execute_kw(db, uid, password, model,
method, args)` — the generic escape hatch, six positional arguments.  No
exception handling. -/
def OdooConn.execute (remote : Oracle) (c : OdooConn) (model : String)
    (method : String) (args : PyVal) : OpResult :=
  let call := ExecuteKwCall.mk c.database c.uid c.password model method
    args Option.none
  match remote call with
  | RpcOutcome.ok v => OpResult.mk (Except.ok v) [call] [] c
  | RpcOutcome.fault f =>
      OpResult.mk (Except.error (PyExn.fault f)) [call] [] c
  | RpcOutcome.transportError m =>
      OpResult.mk (Except.error (PyExn.transport m)) [call] [] c

/-- `execute_kw(model, method, args, kwargs)`: `execute_kw(db, uid,
password, model, method, args, kwargs)` — the generic escape hatch with
keyword arguments, seven positional arguments.  No exception handling. -/
def OdooConn.execute_kw (remote : Oracle) (c : OdooConn) (model : String)
    (method : String) (args : PyVal) (kwargs : PyVal) : OpResult :=
  let call := ExecuteKwCall.mk c.database c.uid c.password model method
    args (Option.some kwargs)
  match remote call with
  | RpcOutcome.ok v => OpResult.mk (Except.ok v) [call] [] c
  | RpcOutcome.fault f =>
      OpResult.mk (Except.error (PyExn.fault f)) [call] [] c
  | RpcOutcome.transportError m =>
      OpResult.mk (Except.error (PyExn.transport m)) [call] [] c

/-- A concrete connection value used to instantiate theorems with
hypotheses on concrete inputs. -/
def sampleConn : OdooConn :=
  OdooConn.mk (PyVal.str "localhost") (PyVal.int 8069) (PyVal.str "http")
    (PyVal.str "odoodb") (PyVal.str "admin") (PyVal.str "secret")
    (PyVal.str "http://localhost:8069") (PyVal.int 2)

/-- Helper: `create` issues exactly one remote call, with the envelope shown,
and leaves the connection unchanged. -/
theorem create_shape (remote : Oracle) (c : OdooConn) (model : String)
    (values : PyVal) :
    (OdooConn.create remote c model values).calls =
        [ExecuteKwCall.mk c.database c.uid c.password model "create"
          (PyVal.list [values]) Option.none] ∧
      (OdooConn.create remote c model values).connAfter = c := by
  cases h : remote (ExecuteKwCall.mk c.database c.uid c.password model
      "create" (PyVal.list [values]) Option.none) <;>
    simp [OdooConn.create, h, strFormatArgs]

/-- Helper: `load` issues exactly one remote call, with the envelope shown,
and leaves the connection unchanged. -/
theorem load_shape (remote : Oracle) (c : OdooConn) (model : String)
    (header : PyVal) (values : PyVal) :
    (OdooConn.load remote c model header values).calls =
        [ExecuteKwCall.mk c.database c.uid c.password model "load"
          (PyVal.list [PyVal.list [header], PyVal.list [values]])
          Option.none] ∧
      (OdooConn.load remote c model header values).connAfter = c := by
  cases h : remote (ExecuteKwCall.mk c.database c.uid c.password model
      "load" (PyVal.list [PyVal.list [header], PyVal.list [values]])
      Option.none) <;>
    simp [OdooConn.load, h, strFormatArgs]

/-- Helper: `count` issues exactly one remote call, with the envelope shown,
and leaves the connection unchanged. -/
theorem count_shape (remote : Oracle) (c : OdooConn) (model : String)
    (domain : PyVal) (limit : Int) :
    (OdooConn.count remote c model domain limit).calls =
        [ExecuteKwCall.mk c.database c.uid c.password model "search_count"
          domain (Option.some (PyVal.dict [("limit", PyVal.int limit)]))] ∧
      (OdooConn.count remote c model domain limit).connAfter = c := by
  cases h : remote (ExecuteKwCall.mk c.database c.uid c.password model
      "search_count" domain
      (Option.some (PyVal.dict [("limit", PyVal.int limit)]))) <;>
    simp [OdooConn.count, h]

/-- Helper: `fields_get` issues exactly one remote call, whose keyword
arguments depend on the truthiness of `attributes`, and leaves the
connection unchanged. -/
theorem fields_get_shape (remote : Oracle) (c : OdooConn) (model : String)
    (attributes : PyVal) :
    (OdooConn.fields_get remote c model attributes).calls =
        [ExecuteKwCall.mk c.database c.uid c.password model "fields_get"
          (PyVal.list [])
          (if pyTruthy attributes then
            Option.some (PyVal.dict [("attributes", attributes)])
          else Option.none)] ∧
      (OdooConn.fields_get remote c model attributes).connAfter = c := by
  cases hb : pyTruthy attributes
  · cases h : remote (ExecuteKwCall.mk c.database c.uid c.password model
        "fields_get" (PyVal.list []) Option.none) <;>
      simp [OdooConn.fields_get, hb, h]
  · cases h : remote (ExecuteKwCall.mk c.database c.uid c.password model
        "fields_get" (PyVal.list [])
        (Option.some (PyVal.dict [("attributes", attributes)]))) <;>
      simp [OdooConn.fields_get, hb, h]

/-- Helper: `get_id` issues exactly one remote call, with the envelope
shown, and leaves the connection unchanged. -/
theorem get_id_shape (remote : Oracle) (c : OdooConn) (model : String)
    (domain : PyVal) :
    (OdooConn.get_id remote c model domain).calls =
        [ExecuteKwCall.mk c.database c.uid c.password model "search" domain
          (Option.some (PyVal.dict [("limit", PyVal.int 1)]))] ∧
      (OdooConn.get_id remote c model domain).connAfter = c := by
  cases h : remote (ExecuteKwCall.mk c.database c.uid c.password model
      "search" domain
      (Option.some (PyVal.dict [("limit", PyVal.int 1)]))) <;>
    simp only [OdooConn.get_id, h]
  · cases pyTruthy _
    · simp
    · cases pyIndexZero _ <;> simp
  · simp
  · simp

/-- Helper: `search` issues exactly one remote call, with the envelope
shown, and leaves the connection unchanged. -/
theorem search_shape (remote : Oracle) (c : OdooConn) (model : String)
    (domain : PyVal) :
    (OdooConn.search remote c model domain).calls =
        [ExecuteKwCall.mk c.database c.uid c.password model "search" domain
          Option.none] ∧
      (OdooConn.search remote c model domain).connAfter = c := by
  cases h : remote (ExecuteKwCall.mk c.database c.uid c.password model
      "search" domain Option.none) <;>
    simp [OdooConn.search, h]

/-- Helper: `read` issues exactly one remote call, with the envelope shown,
and leaves the connection unchanged. -/
theorem read_shape (remote : Oracle) (c : OdooConn) (model : String)
    (ids : PyVal) (fields : PyVal) :
    (OdooConn.read remote c model ids fields).calls =
        [ExecuteKwCall.mk c.database c.uid c.password model "read"
          (PyVal.list [ids])
          (Option.some (PyVal.dict [("fields", fields)]))] ∧
      (OdooConn.read remote c model ids fields).connAfter = c := by
  cases h : remote (ExecuteKwCall.mk c.database c.uid c.password model
      "read" (PyVal.list [ids])
      (Option.some (PyVal.dict [("fields", fields)]))) <;>
    simp [OdooConn.read, h]

/-- Helper: `search_read` issues exactly one remote call, with the envelope
shown, and leaves the connection unchanged. -/
theorem search_read_shape (remote : Oracle) (c : OdooConn) (model : String)
    (domain : PyVal) (offset : Int) (limit : Int) (fields : PyVal) :
    (OdooConn.search_read remote c model domain offset limit fields).calls =
        [ExecuteKwCall.mk c.database c.uid c.password model "search_read"
          domain
          (Option.some (PyVal.dict
            [("offset", PyVal.int offset), ("limit", PyVal.int limit),
              ("fields", fields)]))] ∧
      (OdooConn.search_read remote c model domain offset limit
          fields).connAfter = c := by
  cases h : remote (ExecuteKwCall.mk c.database c.uid c.password model
      "search_read" domain
      (Option.some (PyVal.dict
        [("offset", PyVal.int offset), ("limit", PyVal.int limit),
          ("fields", fields)]))) <;>
    simp [OdooConn.search_read, h, strFormatArgs]

/-- Helper: `write` issues exactly one remote call, with the envelope shown,
and leaves the connection unchanged. -/
theorem write_shape (remote : Oracle) (c : OdooConn) (model : String)
    (id : Int) (values : PyVal) :
    (OdooConn.write remote c model id values).calls =
        [ExecuteKwCall.mk c.database c.uid c.password model "write"
          (PyVal.list [PyVal.list [PyVal.int id], values]) Option.none] ∧
      (OdooConn.write remote c model id values).connAfter = c := by
  cases h : remote (ExecuteKwCall.mk c.database c.uid c.password model
      "write" (PyVal.list [PyVal.list [PyVal.int id], values])
      Option.none) <;>
    simp [OdooConn.write, h, strFormatArgs]

/-- Helper: `unlink` issues exactly one remote call, with the envelope
shown, and leaves the connection unchanged. -/
theorem unlink_shape (remote : Oracle) (c : OdooConn) (model : String)
    (ids : PyVal) :
    (OdooConn.unlink remote c model ids).calls =
        [ExecuteKwCall.mk c.database c.uid c.password model "unlink"
          (PyVal.list [ids]) Option.none] ∧
      (OdooConn.unlink remote c model ids).connAfter = c := by
  cases h : remote (ExecuteKwCall.mk c.database c.uid c.password model
      "unlink" (PyVal.list [ids]) Option.none) <;>
    simp [OdooConn.unlink, h]

/-- Helper: `execute` issues exactly one remote call, with the envelope
shown, and leaves the connection unchanged. -/
theorem execute_shape (remote : Oracle) (c : OdooConn) (model : String)
    (method : String) (args : PyVal) :
    (OdooConn.execute remote c model method args).calls =
        [ExecuteKwCall.mk c.database c.uid c.password model method args
          Option.none] ∧
      (OdooConn.execute remote c model method args).connAfter = c := by
  cases h : remote (ExecuteKwCall.mk c.database c.uid c.password model
      method args Option.none) <;>
    simp [OdooConn.execute, h]

/-- Helper: `execute_kw` issues exactly one remote call, with the envelope
shown, and leaves the connection unchanged. -/
theorem execute_kw_shape (remote : Oracle) (c : OdooConn) (model : String)
    (method : String) (args : PyVal) (kwargs : PyVal) :
    (OdooConn.execute_kw remote c model method args kwargs).calls =
        [ExecuteKwCall.mk c.database c.uid c.password model method args
          (Option.some kwargs)] ∧
      (OdooConn.execute_kw remote c model method args kwargs).connAfter =
        c := by
  cases h : remote (ExecuteKwCall.mk c.database c.uid c.password model
      method args (Option.some kwargs)) <;>
    simp [OdooConn.execute_kw, h]

/-- An object endpoint that answers every call with a fixed application
fault. -/
def constFaultOracle (f : Fault) : Oracle := fun _ => RpcOutcome.fault f

/-- An object endpoint that fails every call at the transport level. -/
def constTransportOracle (m : String) : Oracle :=
  fun _ => RpcOutcome.transportError m

/-- An object endpoint that answers every call with a fixed value. -/
def constOkOracle (v : PyVal) : Oracle := fun _ => RpcOutcome.ok v

/-- C1: `get_id(model, domain)` performs a remote search limited to one
result; when that search returns the list `l`, `get_id` returns the first
element of `l`, or the sentinel `-1` when `l` is empty — in particular an
empty search result raises nothing. -/
theorem get_id_first_match_or_sentinel (remote : Oracle) (c : OdooConn)
    (model : String) (domain : PyVal) (l : List PyVal)
    (h : remote (ExecuteKwCall.mk c.database c.uid c.password model "search"
        domain (Option.some (PyVal.dict [("limit", PyVal.int 1)]))) =
      RpcOutcome.ok (PyVal.list l)) :
    (OdooConn.get_id remote c model domain).result =
      Except.ok (match l with
        | [] => PyVal.int (-1)
        | x :: _ => x) := by
  cases l <;> simp [OdooConn.get_id, h, pyTruthy, pyIndexZero]

/-- Witness: a search that matches nothing makes `get_id` return `-1`
without raising. -/
theorem get_id_first_match_or_sentinel_inst :
    (OdooConn.get_id (constOkOracle (PyVal.list [])) sampleConn
        "res.partner" (PyVal.list [])).result =
      Except.ok (PyVal.int (-1)) :=
  get_id_first_match_or_sentinel (constOkOracle (PyVal.list [])) sampleConn
    "res.partner" (PyVal.list []) [] rfl

/-- C3 counterexample: with the concrete domain `[]`, `count` and
`search_read` send exactly the same positional-args value to the remote
endpoint, so the extra list layer the claim asserts for `count` relative to
`search_read` does not exist. -/
theorem count_vs_search_read_same_domain_shape :
    ((OdooConn.count (constOkOracle PyVal.none) sampleConn "res.partner"
        (PyVal.list []) 0).calls.map ExecuteKwCall.args =
      [PyVal.list []]) ∧
    ((OdooConn.search_read (constOkOracle PyVal.none) sampleConn
        "res.partner" (PyVal.list []) 0 0 (PyVal.list [])).calls.map
        ExecuteKwCall.args = [PyVal.list []]) ∧
    PyVal.list [] ≠ PyVal.list [PyVal.list []] := by
  refine ⟨rfl, rfl, ?_⟩
  intro hEq
  simp at hEq

/-- C3 amended: `count`, `get_id`, `search` and `search_read` all pass the
domain value supplied by their caller through unmodified as the
positional-args value of the remote call — the four shapes are identical,
with no extra list layer anywhere. -/
theorem domain_passed_through_verbatim (remote : Oracle) (c : OdooConn)
    (model : String) (domain fields : PyVal) (limit offset : Int) :
    ((OdooConn.count remote c model domain limit).calls.map
        ExecuteKwCall.args = [domain]) ∧
    ((OdooConn.get_id remote c model domain).calls.map
        ExecuteKwCall.args = [domain]) ∧
    ((OdooConn.search remote c model domain).calls.map
        ExecuteKwCall.args = [domain]) ∧
    ((OdooConn.search_read remote c model domain offset limit
        fields).calls.map ExecuteKwCall.args = [domain]) := by
  refine ⟨?_, ?_, ?_, ?_⟩
  · rw [(count_shape remote c model domain limit).1]; rfl
  · rw [(get_id_shape remote c model domain).1]; rfl
  · rw [(search_shape remote c model domain).1]; rfl
  · rw [(search_read_shape remote c model domain offset limit fields).1]
    rfl

/-- C4: `load(model, header, values)` sends the positional-args value
`[[header], [values]]` — header and rows each wrapped in one extra enclosing
list. -/
theorem load_wraps_header_and_rows (remote : Oracle) (c : OdooConn)
    (model : String) (header values : PyVal) :
    (OdooConn.load remote c model header values).calls.map
        ExecuteKwCall.args =
      [PyVal.list [PyVal.list [header], PyVal.list [values]]] := by
  rw [(load_shape remote c model header values).1]; rfl

/-- C6: `fields_get(model, attributes)` with an empty attribute list issues
the remote call with no keyword arguments at all (requesting every
attribute), and with a non-empty list passes exactly that list as the
`attributes` keyword argument; the positional-args value is `[]` either
way. -/
theorem fields_get_attributes_keyword (remote : Oracle) (c : OdooConn)
    (model : String) (attrs : List PyVal) :
    (OdooConn.fields_get remote c model (PyVal.list attrs)).calls =
      [ExecuteKwCall.mk c.database c.uid c.password model "fields_get"
        (PyVal.list [])
        (if attrs.isEmpty then Option.none
        else
          Option.some (PyVal.dict [("attributes", PyVal.list attrs)]))] := by
  rw [(fields_get_shape remote c model (PyVal.list attrs)).1]
  cases attrs <;> simp [pyTruthy]

/-- C2 (documents the divergence): against a remote endpoint that raises an
application fault on every call, `create`, `load` and `write` catch the
fault, log it and return `None`; `count`, `fields_get`, `get_id`, `search`,
`read`, `unlink`, `execute` and `execute_kw` let the fault propagate; but
`search_read` — which the claim also places in the caught-and-logged group —
raises `IndexError` instead of returning `None`, because the format string
in its handler has three replacement fields and only two arguments. -/
theorem fault_policy_by_operation (f : Fault) (c : OdooConn)
    (model meth : String)
    (values header ids fields args kwargs domain attributes : PyVal)
    (id offset limit : Int) :
    ((OdooConn.create (constFaultOracle f) c model values).result =
        Except.ok PyVal.none) ∧
    ((OdooConn.load (constFaultOracle f) c model header values).result =
        Except.ok PyVal.none) ∧
    ((OdooConn.write (constFaultOracle f) c model id values).result =
        Except.ok PyVal.none) ∧
    ((OdooConn.count (constFaultOracle f) c model domain limit).result =
        Except.error (PyExn.fault f)) ∧
    ((OdooConn.fields_get (constFaultOracle f) c model attributes).result =
        Except.error (PyExn.fault f)) ∧
    ((OdooConn.get_id (constFaultOracle f) c model domain).result =
        Except.error (PyExn.fault f)) ∧
    ((OdooConn.search (constFaultOracle f) c model domain).result =
        Except.error (PyExn.fault f)) ∧
    ((OdooConn.read (constFaultOracle f) c model ids fields).result =
        Except.error (PyExn.fault f)) ∧
    ((OdooConn.unlink (constFaultOracle f) c model ids).result =
        Except.error (PyExn.fault f)) ∧
    ((OdooConn.execute (constFaultOracle f) c model meth args).result =
        Except.error (PyExn.fault f)) ∧
    ((OdooConn.execute_kw (constFaultOracle f) c model meth args
        kwargs).result = Except.error (PyExn.fault f)) ∧
    ((OdooConn.search_read (constFaultOracle f) c model domain offset limit
        fields).result =
      Except.error (PyExn.indexError
        "Replacement index 2 out of range for positional args tuple")) := by
  refine ⟨?_, ?_, ?_, ?_, ?_, ?_, ?_, ?_, ?_, ?_, ?_, ?_⟩ <;>
    simp [OdooConn.create, OdooConn.load, OdooConn.write, OdooConn.count,
      OdooConn.fields_get, OdooConn.get_id, OdooConn.search, OdooConn.read,
      OdooConn.unlink, OdooConn.execute, OdooConn.execute_kw,
      OdooConn.search_read, constFaultOracle, strFormatArgs]
  rfl

/-- C10 (documents the divergence): only the application-fault exception
type is caught in the four guarded operations — a transport-level error
propagates out of `create`, `load`, `write` and `search_read` alike — and a
caught fault makes `create`, `load` and `write` return `None`; but in
`search_read` the caught fault does not produce `None` (the handler itself
raises `IndexError`). -/
theorem guarded_ops_catch_only_fault (m : String) (f : Fault)
    (c : OdooConn) (model : String) (values header domain fields : PyVal)
    (id : Int) (offset limit : Int) :
    ((OdooConn.create (constTransportOracle m) c model values).result =
        Except.error (PyExn.transport m)) ∧
    ((OdooConn.load (constTransportOracle m) c model header values).result =
        Except.error (PyExn.transport m)) ∧
    ((OdooConn.write (constTransportOracle m) c model id values).result =
        Except.error (PyExn.transport m)) ∧
    ((OdooConn.search_read (constTransportOracle m) c model domain offset
        limit fields).result = Except.error (PyExn.transport m)) ∧
    ((OdooConn.create (constFaultOracle f) c model values).result =
        Except.ok PyVal.none) ∧
    ((OdooConn.load (constFaultOracle f) c model header values).result =
        Except.ok PyVal.none) ∧
    ((OdooConn.write (constFaultOracle f) c model id values).result =
        Except.ok PyVal.none) ∧
    ¬((OdooConn.search_read (constFaultOracle f) c model domain offset
        limit fields).result = Except.ok PyVal.none) := by
  refine ⟨?_, ?_, ?_, ?_, ?_, ?_, ?_, ?_⟩ <;>
    simp [OdooConn.create, OdooConn.load, OdooConn.write,
      OdooConn.search_read, constTransportOracle, constFaultOracle,
      strFormatArgs]

/-- Helper: a successful `__init__` stores the seven `config.get` values
verbatim, stores as `uid` exactly what `authenticate` returned, and
performed exactly the one recorded `authenticate` call. -/
theorem init_ok_spec (auth : AuthOracle) (config : List (String × PyVal))
    (r : InitResult) (h : OdooConn.init auth config = Except.ok r) :
    r.conn.hostname = configGet config "hostname" ∧
    r.conn.port = configGet config "port" ∧
    r.conn.schema = configGet config "schema" ∧
    r.conn.database = configGet config "database" ∧
    r.conn.username = configGet config "username" ∧
    r.conn.password = configGet config "password" ∧
    r.conn.url = configGet config "url" ∧
    auth (configGet config "database") (configGet config "username")
        (configGet config "password") (PyVal.dict []) =
      RpcOutcome.ok r.conn.uid ∧
    r.authCalls = [(configGet config "database",
      configGet config "username", configGet config "password",
      PyVal.dict [])] := by
  simp only [OdooConn.init] at h
  cases hp1 : serverProxy
      (pyStr (configGet config "url") ++ "/xmlrpc/2/common") <;>
    rw [hp1] at h
  · cases h
  · cases hp2 : serverProxy
        (pyStr (configGet config "url") ++ "/xmlrpc/2/object") <;>
      rw [hp2] at h
    · cases h
    · cases ha : auth (configGet config "database")
          (configGet config "username") (configGet config "password")
          (PyVal.dict []) <;> rw [ha] at h
      · cases h
        exact ⟨rfl, rfl, rfl, rfl, rfl, rfl, rfl, rfl, rfl⟩
      · cases h
      · cases h

/-- All remote calls in the result carry the database, session identifier
and password of the connection, the given model name, and the given method
name. -/
def sendsEnvelope (c : OdooConn) (model meth : String) (r : OpResult) :
    Prop :=
  ∀ call ∈ r.calls,
    call.database = c.database ∧ call.uid = c.uid ∧
      call.password = c.password ∧ call.model = model ∧ call.method = meth

/-- Helper: an operation whose single call has the connection fields in
envelope position sends the envelope. -/
theorem sendsEnvelope_of_calls {c : OdooConn} {model meth : String}
    {r : OpResult} {a : PyVal} {k : Option PyVal}
    (h : r.calls = [ExecuteKwCall.mk c.database c.uid c.password model meth
      a k]) :
    sendsEnvelope c model meth r := by
  intro call hc
  rw [h] at hc
  simp only [List.mem_singleton] at hc
  subst hc
  exact ⟨rfl, rfl, rfl, rfl, rfl⟩

/-- C5: every operation invokes the generic-execute endpoint with the fixed
envelope — for a connection built by `__init__`, the database and password
of every call are the configured values, the session identifier is the one
`authenticate` returned at construction, and the method slot holds the
fixed name of each operation. -/
theorem all_ops_use_fixed_envelope (auth : AuthOracle)
    (config : List (String × PyVal)) (r : InitResult)
    (hinit : OdooConn.init auth config = Except.ok r) (remote : Oracle)
    (model meth : String)
    (values header ids fields args kwargs domain attributes : PyVal)
    (id offset limit : Int) :
    (r.conn.database = configGet config "database" ∧
      r.conn.password = configGet config "password" ∧
      auth (configGet config "database") (configGet config "username")
          (configGet config "password") (PyVal.dict []) =
        RpcOutcome.ok r.conn.uid) ∧
    sendsEnvelope r.conn model "create"
      (OdooConn.create remote r.conn model values) ∧
    sendsEnvelope r.conn model "load"
      (OdooConn.load remote r.conn model header values) ∧
    sendsEnvelope r.conn model "search_count"
      (OdooConn.count remote r.conn model domain limit) ∧
    sendsEnvelope r.conn model "fields_get"
      (OdooConn.fields_get remote r.conn model attributes) ∧
    sendsEnvelope r.conn model "search"
      (OdooConn.get_id remote r.conn model domain) ∧
    sendsEnvelope r.conn model "search"
      (OdooConn.search remote r.conn model domain) ∧
    sendsEnvelope r.conn model "read"
      (OdooConn.read remote r.conn model ids fields) ∧
    sendsEnvelope r.conn model "search_read"
      (OdooConn.search_read remote r.conn model domain offset limit
        fields) ∧
    sendsEnvelope r.conn model "write"
      (OdooConn.write remote r.conn model id values) ∧
    sendsEnvelope r.conn model "unlink"
      (OdooConn.unlink remote r.conn model ids) ∧
    sendsEnvelope r.conn model meth
      (OdooConn.execute remote r.conn model meth args) ∧
    sendsEnvelope r.conn model meth
      (OdooConn.execute_kw remote r.conn model meth args kwargs) := by
  obtain ⟨-, -, -, h4, -, h6, -, h8, -⟩ := init_ok_spec auth config r hinit
  exact ⟨⟨h4, h6, h8⟩,
    sendsEnvelope_of_calls (create_shape remote r.conn model values).1,
    sendsEnvelope_of_calls (load_shape remote r.conn model header values).1,
    sendsEnvelope_of_calls (count_shape remote r.conn model domain limit).1,
    sendsEnvelope_of_calls
      (fields_get_shape remote r.conn model attributes).1,
    sendsEnvelope_of_calls (get_id_shape remote r.conn model domain).1,
    sendsEnvelope_of_calls (search_shape remote r.conn model domain).1,
    sendsEnvelope_of_calls (read_shape remote r.conn model ids fields).1,
    sendsEnvelope_of_calls
      (search_read_shape remote r.conn model domain offset limit fields).1,
    sendsEnvelope_of_calls (write_shape remote r.conn model id values).1,
    sendsEnvelope_of_calls (unlink_shape remote r.conn model ids).1,
    sendsEnvelope_of_calls (execute_shape remote r.conn model meth args).1,
    sendsEnvelope_of_calls
      (execute_kw_shape remote r.conn model meth args kwargs).1⟩

/-- A concrete authentication endpoint that always succeeds with session
identifier 2. -/
def auth0 : AuthOracle := fun _ _ _ _ => RpcOutcome.ok (PyVal.int 2)

/-- A concrete configuration mapping holding a database, a password and an
http url; the remaining four options are absent. -/
def cfg0 : List (String × PyVal) :=
  [("database", PyVal.str "odoodb"), ("password", PyVal.str "secret"),
    ("url", PyVal.str "http://localhost:8069")]

/-- The construction result of `auth0` with `cfg0`: missing options come
back as `None`, the found ones verbatim, and the session identifier is 2. -/
def r0 : InitResult :=
  InitResult.mk
    (OdooConn.mk PyVal.none PyVal.none PyVal.none (PyVal.str "odoodb")
      PyVal.none (PyVal.str "secret") (PyVal.str "http://localhost:8069")
      (PyVal.int 2))
    [(PyVal.str "odoodb", PyVal.none, PyVal.str "secret", PyVal.dict [])]

/-- Witness: for the connection constructed from `cfg0`, `create` sends the
fixed envelope with the configured database, password and fresh session
identifier. -/
theorem all_ops_use_fixed_envelope_inst :
    sendsEnvelope r0.conn "res.partner" "create"
      (OdooConn.create (constFaultOracle (Fault.mk 1 "boom")) r0.conn
        "res.partner" (PyVal.dict [])) :=
  (all_ops_use_fixed_envelope auth0 cfg0 r0 rfl
    (constFaultOracle (Fault.mk 1 "boom")) "res.partner" "noop"
    (PyVal.dict []) PyVal.none PyVal.none PyVal.none PyVal.none PyVal.none
    PyVal.none PyVal.none 1 0 0).2.1

/-- C7: no operation mutates the connection object: after any of the twelve
methods, against any remote behaviour, the connection record — the seven
configuration values and the cached session identifier, all written at
construction — is unchanged. -/
theorem no_op_mutates_connection (remote : Oracle) (c : OdooConn)
    (model meth : String)
    (values header ids fields args kwargs domain attributes : PyVal)
    (id offset limit : Int) :
    ((OdooConn.create remote c model values).connAfter = c) ∧
    ((OdooConn.load remote c model header values).connAfter = c) ∧
    ((OdooConn.count remote c model domain limit).connAfter = c) ∧
    ((OdooConn.fields_get remote c model attributes).connAfter = c) ∧
    ((OdooConn.get_id remote c model domain).connAfter = c) ∧
    ((OdooConn.search remote c model domain).connAfter = c) ∧
    ((OdooConn.read remote c model ids fields).connAfter = c) ∧
    ((OdooConn.search_read remote c model domain offset limit
        fields).connAfter = c) ∧
    ((OdooConn.write remote c model id values).connAfter = c) ∧
    ((OdooConn.unlink remote c model ids).connAfter = c) ∧
    ((OdooConn.execute remote c model meth args).connAfter = c) ∧
    ((OdooConn.execute_kw remote c model meth args kwargs).connAfter =
      c) :=
  ⟨(create_shape remote c model values).2,
    (load_shape remote c model header values).2,
    (count_shape remote c model domain limit).2,
    (fields_get_shape remote c model attributes).2,
    (get_id_shape remote c model domain).2,
    (search_shape remote c model domain).2,
    (read_shape remote c model ids fields).2,
    (search_read_shape remote c model domain offset limit fields).2,
    (write_shape remote c model id values).2,
    (unlink_shape remote c model ids).2,
    (execute_shape remote c model meth args).2,
    (execute_kw_shape remote c model meth args kwargs).2⟩

/-- Helper: a url value passing the proxy check yields an ok result from
each of the two `ServerProxy` constructions. -/
theorem serverProxy_ok_of_proxyOk {url : PyVal} (hp : proxyOk url = true) :
    (∃ s, serverProxy (pyStr url ++ "/xmlrpc/2/common") = Except.ok s) ∧
      ∃ s, serverProxy (pyStr url ++ "/xmlrpc/2/object") = Except.ok s := by
  unfold proxyOk at hp
  cases h1 : serverProxy (pyStr url ++ "/xmlrpc/2/common") <;>
    cases h2 : serverProxy (pyStr url ++ "/xmlrpc/2/object") <;>
      rw [h1, h2] at hp <;> simp at hp
  exact ⟨⟨_, rfl⟩, ⟨_, rfl⟩⟩

/-- C8: authentication failure at construction is fatal and unretried.  For
any configuration whose url reaches `authenticate` (the endpoint handles
build; construction on other configurations fails even earlier): an
exception raised by `authenticate` (fault or transport) propagates out of
`__init__`, so no connection object exists; on the return path `__init__`
performs exactly one `authenticate` call, stores the returned identifier as
`uid` without any check — a falsy identifier included — and every later
search forwards exactly that stored identifier, so nothing re-authenticates
or recovers. -/
theorem init_auth_failure_fatal (auth : AuthOracle)
    (config : List (String × PyVal))
    (hp : proxyOk (configGet config "url") = true) :
    (∀ f, auth (configGet config "database") (configGet config "username")
        (configGet config "password") (PyVal.dict []) =
          RpcOutcome.fault f →
      OdooConn.init auth config = Except.error (PyExn.fault f)) ∧
    (∀ m, auth (configGet config "database") (configGet config "username")
        (configGet config "password") (PyVal.dict []) =
          RpcOutcome.transportError m →
      OdooConn.init auth config = Except.error (PyExn.transport m)) ∧
    (∀ r, OdooConn.init auth config = Except.ok r →
      r.authCalls.length = 1 ∧
      auth (configGet config "database") (configGet config "username")
          (configGet config "password") (PyVal.dict []) =
        RpcOutcome.ok r.conn.uid ∧
      ∀ remote model domain,
        (OdooConn.search remote r.conn model domain).calls.map
          ExecuteKwCall.uid = [r.conn.uid]) := by
  obtain ⟨⟨s1, h1c⟩, ⟨s2, h2c⟩⟩ := serverProxy_ok_of_proxyOk hp
  refine ⟨?_, ?_, ?_⟩
  · intro f hf
    simp [OdooConn.init, h1c, h2c, hf]
  · intro m hm
    simp [OdooConn.init, h1c, h2c, hm]
  · intro r hr
    obtain ⟨-, -, -, -, -, -, -, h8, h9⟩ := init_ok_spec auth config r hr
    refine ⟨by rw [h9]; rfl, h8, ?_⟩
    intro remote model domain
    rw [(search_shape remote r.conn model domain).1]
    rfl

/-- A concrete authentication endpoint that returns the falsy identifier
`False`, as the server does for bad credentials. -/
def authFalse : AuthOracle := fun _ _ _ _ => RpcOutcome.ok (PyVal.bool false)

/-- A configuration holding only a valid http url. -/
def cfgUrl : List (String × PyVal) := [("url", PyVal.str "http://h")]

/-- The construction result of `authFalse` with `cfgUrl`: every option but
the url is `None` and the stored identifier is the falsy `False`. -/
def r1 : InitResult :=
  InitResult.mk
    (OdooConn.mk PyVal.none PyVal.none PyVal.none PyVal.none PyVal.none
      PyVal.none (PyVal.str "http://h") (PyVal.bool false))
    [(PyVal.none, PyVal.none, PyVal.none, PyVal.dict [])]

/-- Witness: a faulting `authenticate` makes construction fail with that
fault, and a falsy identifier (`False`) from `authenticate` is stored
verbatim after exactly one authentication call and forwarded by every later
search. -/
theorem init_auth_failure_fatal_inst :
    (OdooConn.init (fun _ _ _ _ => RpcOutcome.fault (Fault.mk 3 "denied"))
        cfgUrl = Except.error (PyExn.fault (Fault.mk 3 "denied"))) ∧
    (r1.authCalls.length = 1 ∧
      authFalse (configGet cfgUrl "database") (configGet cfgUrl "username")
          (configGet cfgUrl "password") (PyVal.dict []) =
        RpcOutcome.ok r1.conn.uid ∧
      ∀ remote model domain,
        (OdooConn.search remote r1.conn model domain).calls.map
          ExecuteKwCall.uid = [r1.conn.uid]) :=
  ⟨(init_auth_failure_fatal
        (fun _ _ _ _ => RpcOutcome.fault (Fault.mk 3 "denied")) cfgUrl
        rfl).1 (Fault.mk 3 "denied") rfl,
    (init_auth_failure_fatal authFalse cfgUrl rfl).2.2 r1 rfl⟩

/-- C9 counterexample: on the empty configuration — the url option missing
among the rest — construction raises the local
`OSError("unsupported XML-RPC protocol")` while building the first endpoint
handle, whatever `authenticate` would answer: with an oracle that always
succeeds and with one that would fault with code 9 the result is the same
local error, so a local error is raised and `authenticate` is never
consulted. -/
theorem init_missing_url_raises_locally :
    (OdooConn.init auth0 [] =
      Except.error (PyExn.osError "unsupported XML-RPC protocol")) ∧
    (OdooConn.init (fun _ _ _ _ => RpcOutcome.fault (Fault.mk 9 "x")) [] =
      Except.error (PyExn.osError "unsupported XML-RPC protocol")) :=
  ⟨rfl, rfl⟩

/-- C9 amended: `__init__` reads exactly the seven configuration options
via `config.get`, with no defaults and no validation of its own: a
successfully constructed connection stores the seven looked-up values
verbatim (a missing option such as the hostname is stored as the non-value
`None`); any two configurations agreeing on those seven keys construct
identically; when the configured url passes the `ServerProxy` scheme check,
construction raises no local error — it succeeds whenever `authenticate`
returns; but a url failing that check (a missing url included) makes
construction raise the local `OSError` before any remote call. -/
theorem init_reads_exactly_seven_keys (auth : AuthOracle)
    (config config2 : List (String × PyVal)) :
    (∀ r, OdooConn.init auth config = Except.ok r →
      (r.conn.hostname = configGet config "hostname" ∧
        r.conn.port = configGet config "port" ∧
        r.conn.schema = configGet config "schema" ∧
        r.conn.database = configGet config "database" ∧
        r.conn.username = configGet config "username" ∧
        r.conn.password = configGet config "password" ∧
        r.conn.url = configGet config "url") ∧
      (config.lookup "hostname" = Option.none →
        r.conn.hostname = PyVal.none)) ∧
    ((∀ k ∈ ["hostname", "port", "schema", "database", "username",
        "password", "url"], configGet config2 k = configGet config k) →
      OdooConn.init auth config2 = OdooConn.init auth config) ∧
    (∀ v, proxyOk (configGet config "url") = true →
      auth (configGet config "database") (configGet config "username")
          (configGet config "password") (PyVal.dict []) = RpcOutcome.ok v →
      ∃ r, OdooConn.init auth config = Except.ok r) ∧
    (proxyOk (configGet config "url") = false →
      OdooConn.init auth config =
        Except.error (PyExn.osError "unsupported XML-RPC protocol")) := by
  refine ⟨?_, ?_, ?_, ?_⟩
  · intro r hr
    obtain ⟨h1, h2, h3, h4, h5, h6, h7, -, -⟩ :=
      init_ok_spec auth config r hr
    refine ⟨⟨h1, h2, h3, h4, h5, h6, h7⟩, ?_⟩
    intro hl
    rw [h1]
    simp [configGet, hl]
  · intro hag
    have h1 := hag "hostname" (by simp)
    have h2 := hag "port" (by simp)
    have h3 := hag "schema" (by simp)
    have h4 := hag "database" (by simp)
    have h5 := hag "username" (by simp)
    have h6 := hag "password" (by simp)
    have h7 := hag "url" (by simp)
    simp only [OdooConn.init, h1, h2, h3, h4, h5, h6, h7]
  · intro v hpOk hv
    obtain ⟨⟨s1, h1c⟩, ⟨s2, h2c⟩⟩ := serverProxy_ok_of_proxyOk hpOk
    refine ⟨InitResult.mk
      (OdooConn.mk (configGet config "hostname") (configGet config "port")
        (configGet config "schema") (configGet config "database")
        (configGet config "username") (configGet config "password")
        (configGet config "url") v)
      [(configGet config "database", configGet config "username",
        configGet config "password", PyVal.dict [])], ?_⟩
    simp [OdooConn.init, h1c, h2c, hv]
  · intro hpBad
    by_cases hc : uriScheme (pyStr (configGet config "url") ++
          "/xmlrpc/2/common") = "http" ∨
        uriScheme (pyStr (configGet config "url") ++
          "/xmlrpc/2/common") = "https"
    · by_cases ho : uriScheme (pyStr (configGet config "url") ++
            "/xmlrpc/2/object") = "http" ∨
          uriScheme (pyStr (configGet config "url") ++
            "/xmlrpc/2/object") = "https"
      · exfalso
        simp [proxyOk, serverProxy, hc, ho] at hpBad
      · simp [OdooConn.init, serverProxy, hc, ho]
    · simp [OdooConn.init, serverProxy, hc]

/-- Witness: an unrelated extra key changes nothing (construction from
`[("junk", 5)]` equals construction from the empty configuration); the
connection built from `cfg0` stores the missing hostname as `None`;
construction on `cfg0` succeeds with no local error; and the empty
configuration — url missing — fails with the local `OSError`. -/
theorem init_reads_exactly_seven_keys_inst :
    (OdooConn.init auth0 [("junk", PyVal.int 5)] = OdooConn.init auth0 []) ∧
    r0.conn.hostname = PyVal.none ∧
    (∃ r, OdooConn.init auth0 cfg0 = Except.ok r) ∧
    OdooConn.init auth0 [] =
      Except.error (PyExn.osError "unsupported XML-RPC protocol") :=
  ⟨(init_reads_exactly_seven_keys auth0 [] [("junk", PyVal.int 5)]).2.1
      (by intro k hk; fin_cases hk <;> rfl),
    ((init_reads_exactly_seven_keys auth0 cfg0 cfg0).1 r0 rfl).2 rfl,
    (init_reads_exactly_seven_keys auth0 cfg0 cfg0).2.2.1 (PyVal.int 2)
      rfl rfl,
    (init_reads_exactly_seven_keys auth0 [] []).2.2.2 rfl⟩

end OdooConnSpec
